import Mathlib

/-!
# UE application layer and BTS link adapter

A shallow embedding of `UE/Application/Application.cpp` (the device context facade that
routes every event to the active state) and of the link adapter and wire codec exercised
by `UE/Tests/Application/Ports/BtsPortTestSuite.cpp`.

* Collaborators (logger, SMS store, state object) are reference parameters in C++; here
  every call made on them is appended to a trace, so "which calls, in which order, with
  which arguments" becomes a statement about a list.
* The state classes are used by `Application.cpp` but defined elsewhere. They are a
  parameter: a type `σ` of state objects and a handler function telling, for every state
  and every method of the state interface, what the state does and whether it replaces
  itself through `setState`. Calls a state makes in its own methods enter the trace as
  `byState` entries, apart from the calls written in `Application.cpp`.
* The link adapter and the codec are known through their test suite only; they are
  modelled from the specification and marked as such.
-/

namespace common

/-- Phone number of `Messages/PhoneNumber.hpp`: a numeric identifier compared by value. -/
structure PhoneNumber where
  value : Nat
deriving DecidableEq, Repr

/-- Base station identifier: a numeric identifier compared by value. -/
structure BtsId where
  value : Nat
deriving DecidableEq, Repr

end common

namespace ue

open common

/-- Record of the SMS store. `SmsEntity(a, b, text)` in `Application::handleSms` and in the
test suite takes the sender value, the recipient value and the text, in this order. -/
structure SmsEntity where
  sender : Nat
  recipient : Nat
  text : String
deriving DecidableEq, Repr

/-! ## The state interface -/

/-- One invocation of a method of the active state object, with its arguments. These are
the methods `Application.cpp` calls through `context.state->`; the first seven are the
`IUserEventsHandler` interface of `Ports/IUserPort.hpp`. -/
inductive StateCall where
  | viewSmsList
  | viewSms (index : Nat)
  | sendSms (sms : SmsEntity)
  | composeSms
  | startDial
  | sendCallRequest (number : PhoneNumber)
  | cancelCallRequest
  | handleTimeout
  | handleSib (btsId : BtsId)
  | handleAttachAccept
  | handleAttachReject
  | handleSms (from_ : PhoneNumber) (text : String)
  | handleSmsDeliveryFailure (from_ : PhoneNumber)
  | handleDisconnect
  | handleCallAccepted
  | handleCallDropped
  | handleCallRecipientNotAvailable (from_ : PhoneNumber)
  | handleRedirect
deriving DecidableEq, Repr

/-- What a state's method did: the calls it made on the collaborators (kept abstract, of
type `ε`) and the state it installed with `context.setState`, if it installed one. -/
structure Reaction (σ ε : Type) where
  effects : List ε
  next : Option σ

/-- The state classes, which `Application.cpp` only uses. `NotConnectedState` is the
object built by `context.setState<NotConnectedState>()`, `construct` is what that
constructor does on the collaborators, and `handler s c` is the body of method `c` of
state `s`. -/
structure States (σ ε : Type) where
  NotConnectedState : σ
  construct : List ε
  handler : σ → StateCall → Reaction σ ε

/-- One entry of the call trace. `logInfo`, `save` and `state` are calls written in
`Application.cpp` itself; `byState` entries are calls made from inside a state's method or
constructor. `state obj s c` is the call `context.state->c` received by the state object
number `obj`, whose value is `s`. -/
inductive Call (σ ε : Type) where
  | logInfo (text : String) (number : Option PhoneNumber)
  | save (sms : SmsEntity)
  | state (obj : Nat) (s : σ) (c : StateCall)
  | byState (e : ε)

/-- The context: the active state object. `stateId` numbers the state objects in the order
they are created, so two objects with equal contents are still told apart. -/
structure Context (σ : Type) where
  state : σ
  stateId : Nat

/-- Replacing the state: `setState` builds a new object and drops the old one. -/
def Context.setState {σ : Type} (ctx : Context σ) (s : σ) : Context σ :=
  { state := s, stateId := ctx.stateId + 1 }

/-- The `Application` object: its context, its own phone number, and the trace of calls
made so far on the collaborators. -/
structure Application (σ ε : Type) where
  context : Context σ
  phoneNumber : PhoneNumber
  trace : List (Call σ ε)

namespace Application

variable {σ ε : Type}

/-- Constructor `Application::Application`: stores the phone number, logs "Started" and
installs `NotConnectedState` as the first state object. -/
def new (st : States σ ε) (phoneNumber : PhoneNumber) : Application σ ε :=
  { context := { state := st.NotConnectedState, stateId := 0 }
    phoneNumber := phoneNumber
    trace := Call.logInfo "Started" none :: st.construct.map Call.byState }

/-- Call `logger.logInfo(text, number)`. -/
def logInfo (app : Application σ ε) (text : String) (number : Option PhoneNumber) :
    Application σ ε :=
  { app with trace := app.trace ++ [Call.logInfo text number] }

/-- Call `context.smsDb.save(sms)`. -/
def smsDbSave (app : Application σ ε) (sms : SmsEntity) : Application σ ε :=
  { app with trace := app.trace ++ [Call.save sms] }

/-- Call `context.state->c`: the object that is active now receives the call, its method
runs, and the context holds afterwards whatever state that method installed. -/
def callState (st : States σ ε) (app : Application σ ε) (c : StateCall) : Application σ ε :=
  let r := st.handler app.context.state c
  { app with
    context := match r.next with
      | none => app.context
      | some s => app.context.setState s
    trace := app.trace ++ Call.state app.context.stateId app.context.state c ::
      r.effects.map Call.byState }

def viewSmsList (st : States σ ε) (app : Application σ ε) : Application σ ε :=
  app.callState st StateCall.viewSmsList

def viewSms (st : States σ ε) (app : Application σ ε) (index : Nat) : Application σ ε :=
  app.callState st (StateCall.viewSms index)

def sendSms (st : States σ ε) (app : Application σ ε) (sms : SmsEntity) : Application σ ε :=
  app.callState st (StateCall.sendSms sms)

def composeSms (st : States σ ε) (app : Application σ ε) : Application σ ε :=
  app.callState st StateCall.composeSms

def handleTimeout (st : States σ ε) (app : Application σ ε) : Application σ ε :=
  app.callState st StateCall.handleTimeout

def handleSib (st : States σ ε) (app : Application σ ε) (btsId : BtsId) : Application σ ε :=
  app.callState st (StateCall.handleSib btsId)

def handleAttachAccept (st : States σ ε) (app : Application σ ε) : Application σ ε :=
  app.callState st StateCall.handleAttachAccept

def handleSms (st : States σ ε) (app : Application σ ε) (from_ : PhoneNumber)
    (text : String) : Application σ ε :=
  let app1 := app.logInfo "SMS received from: " (some from_)
  let app2 := app1.smsDbSave (SmsEntity.mk from_.value app.phoneNumber.value text)
  app2.callState st (StateCall.handleSms from_ text)

def handleAttachReject (st : States σ ε) (app : Application σ ε) : Application σ ε :=
  app.callState st StateCall.handleAttachReject

def handleDisconnect (st : States σ ε) (app : Application σ ε) : Application σ ε :=
  app.callState st StateCall.handleDisconnect

def handleSmsDeliveryFailure (st : States σ ε) (app : Application σ ε)
    (from_ : PhoneNumber) : Application σ ε :=
  let app1 := app.logInfo "from:" (some from_)
  app1.callState st (StateCall.handleSmsDeliveryFailure from_)

def startDial (st : States σ ε) (app : Application σ ε) : Application σ ε :=
  app.callState st StateCall.startDial

def sendCallRequest (st : States σ ε) (app : Application σ ε) (number : PhoneNumber) :
    Application σ ε :=
  app.callState st (StateCall.sendCallRequest number)

def handleCallAccepted (st : States σ ε) (app : Application σ ε) : Application σ ε :=
  app.callState st StateCall.handleCallAccepted

def handleCallDropped (st : States σ ε) (app : Application σ ε) : Application σ ε :=
  app.callState st StateCall.handleCallDropped

def cancelCallRequest (st : States σ ε) (app : Application σ ε) : Application σ ε :=
  app.callState st StateCall.cancelCallRequest

def handleCallRecipientNotAvailable (st : States σ ε) (app : Application σ ε)
    (from_ : PhoneNumber) : Application σ ε :=
  app.callState st (StateCall.handleCallRecipientNotAvailable from_)

def handleRedirect (st : States σ ε) (app : Application σ ε) : Application σ ε :=
  app.callState st StateCall.handleRedirect

end Application

/-! ## Events delivered to the Application -/

/-- An event as the ports deliver it: which public method of `Application` is called, with
which arguments. -/
inductive Event where
  | viewSmsList
  | viewSms (index : Nat)
  | sendSms (sms : SmsEntity)
  | composeSms
  | startDial
  | sendCallRequest (number : PhoneNumber)
  | cancelCallRequest
  | handleTimeout
  | handleSib (btsId : BtsId)
  | handleAttachAccept
  | handleAttachReject
  | handleSms (from_ : PhoneNumber) (text : String)
  | handleSmsDeliveryFailure (from_ : PhoneNumber)
  | handleDisconnect
  | handleCallAccepted
  | handleCallDropped
  | handleCallRecipientNotAvailable (from_ : PhoneNumber)
  | handleRedirect
deriving DecidableEq, Repr

/-- The method of the state interface that has the same name as the event, applied to the
same arguments. This is the specification side of the forwarding rule; the methods of
`Application` above do not use it. -/
def Event.sameNamed : Event → StateCall
  | .viewSmsList => StateCall.viewSmsList
  | .viewSms index => StateCall.viewSms index
  | .sendSms sms => StateCall.sendSms sms
  | .composeSms => StateCall.composeSms
  | .startDial => StateCall.startDial
  | .sendCallRequest number => StateCall.sendCallRequest number
  | .cancelCallRequest => StateCall.cancelCallRequest
  | .handleTimeout => StateCall.handleTimeout
  | .handleSib btsId => StateCall.handleSib btsId
  | .handleAttachAccept => StateCall.handleAttachAccept
  | .handleAttachReject => StateCall.handleAttachReject
  | .handleSms from_ text => StateCall.handleSms from_ text
  | .handleSmsDeliveryFailure from_ => StateCall.handleSmsDeliveryFailure from_
  | .handleDisconnect => StateCall.handleDisconnect
  | .handleCallAccepted => StateCall.handleCallAccepted
  | .handleCallDropped => StateCall.handleCallDropped
  | .handleCallRecipientNotAvailable from_ => StateCall.handleCallRecipientNotAvailable from_
  | .handleRedirect => StateCall.handleRedirect

/-- Whether the event is an inbound SMS. -/
def Event.isHandleSms : Event → Bool
  | .handleSms _ _ => true
  | _ => false

namespace Application

variable {σ ε : Type}

/-- Delivering one event: the port calls the public method of that name. -/
def deliver (st : States σ ε) (app : Application σ ε) : Event → Application σ ε
  | .viewSmsList => app.viewSmsList st
  | .viewSms index => app.viewSms st index
  | .sendSms sms => app.sendSms st sms
  | .composeSms => app.composeSms st
  | .startDial => app.startDial st
  | .sendCallRequest number => app.sendCallRequest st number
  | .cancelCallRequest => app.cancelCallRequest st
  | .handleTimeout => app.handleTimeout st
  | .handleSib btsId => app.handleSib st btsId
  | .handleAttachAccept => app.handleAttachAccept st
  | .handleAttachReject => app.handleAttachReject st
  | .handleSms from_ text => app.handleSms st from_ text
  | .handleSmsDeliveryFailure from_ => app.handleSmsDeliveryFailure st from_
  | .handleDisconnect => app.handleDisconnect st
  | .handleCallAccepted => app.handleCallAccepted st
  | .handleCallDropped => app.handleCallDropped st
  | .handleCallRecipientNotAvailable from_ => app.handleCallRecipientNotAvailable st from_
  | .handleRedirect => app.handleRedirect st

/-- Delivering a sequence of events, one after the other. -/
def run (st : States σ ε) (app : Application σ ε) : List Event → Application σ ε
  | [] => app
  | e :: es => run st (app.deliver st e) es

/-- The calls made between two moments: what `after` has in its trace beyond `before`. -/
def callsSince (before after : Application σ ε) : List (Call σ ε) :=
  after.trace.drop before.trace.length

end Application

/-! ## Reading a trace -/

/-- The records the Application itself handed to the SMS store, in order. -/
def savedRecords {σ ε : Type} : List (Call σ ε) → List SmsEntity
  | [] => []
  | Call.save sms :: cs => sms :: savedRecords cs
  | _ :: cs => savedRecords cs

/-- A delivery: the state object number, its value, and the method it received. -/
structure Delivery (σ : Type) where
  obj : Nat
  state : σ
  call : StateCall

/-- The calls the Application made on state objects, in order. -/
def deliveries {σ ε : Type} : List (Call σ ε) → List (Delivery σ)
  | [] => []
  | Call.state obj s c :: cs => Delivery.mk obj s c :: deliveries cs
  | _ :: cs => deliveries cs

/-- The trace without the logger calls and without what states do in their own methods:
the calls of the Application on the SMS store and on state objects. -/
def ownCalls {σ ε : Type} : List (Call σ ε) → List (Call σ ε)
  | [] => []
  | Call.logInfo _ _ :: cs => ownCalls cs
  | Call.byState _ :: cs => ownCalls cs
  | c :: cs => c :: ownCalls cs

/-! ## A state table to run the Application on -/

/-- Modelled from the spec: the lifecycle phases of the state table (the state classes are
defined outside `Application.cpp`). Used to run the Application on concrete event
sequences. -/
inductive Phase where
  | NotAttached
  | Attaching
  | Idle
  | Dialing
  | Talking
deriving DecidableEq, Repr

/-- Modelled from the spec: the key transitions of the state table, with the user-interface
call each one makes; every event the table does not list for a phase is a no-op. -/
def tableHandler : Phase → StateCall → Reaction Phase String
  | .NotAttached, .handleSib _ => ⟨["sendAttachRequest", "showConnecting"], some .Attaching⟩
  | .Attaching, .handleAttachAccept => ⟨["showConnected"], some .Idle⟩
  | .Attaching, .handleAttachReject => ⟨["showNotConnected"], some .NotAttached⟩
  | .Attaching, .handleDisconnect => ⟨[], some .NotAttached⟩
  | .Idle, .sendCallRequest _ => ⟨["sendCallRequest", "showDialing"], some .Dialing⟩
  | .Idle, .handleSms _ _ => ⟨["showNewSms"], none⟩
  | .Idle, .handleDisconnect => ⟨[], some .NotAttached⟩
  | .Idle, .handleRedirect => ⟨[], some .NotAttached⟩
  | .Dialing, .handleCallAccepted => ⟨["showTalking"], some .Talking⟩
  | .Dialing, .handleCallRecipientNotAvailable _ => ⟨["showPartnerNotAvailable"], some .Idle⟩
  | .Dialing, .cancelCallRequest => ⟨[], some .Idle⟩
  | .Dialing, .handleTimeout => ⟨[], some .Idle⟩
  | .Dialing, .handleDisconnect => ⟨[], some .NotAttached⟩
  | .Talking, .handleCallDropped => ⟨[], some .Idle⟩
  | .Talking, .handleDisconnect => ⟨[], some .NotAttached⟩
  | _, _ => ⟨[], none⟩

/-- Modelled from the spec: the state table as a value for the state-class parameter, with
NotAttached as the initial state. -/
def tableStates : States Phase String :=
  { NotConnectedState := Phase.NotAttached
    construct := []
    handler := tableHandler }

end ue

/-! ## Wire codec -/

namespace common

/-- Message kinds named by the test suite (`common::MessageId::…`): `Sib` is the system
broadcast and `UnknownRecipient` the "recipient unavailable" response. -/
inductive MessageId where
  | Sib
  | AttachRequest
  | AttachResponse
  | Sms
  | CallRequest
  | CallAccepted
  | CallDropped
  | UnknownRecipient
deriving DecidableEq, Repr

/-- The wire buffer: a sequence of bytes. -/
abbrev BinaryMessage := List Nat

/-- Why a read failed. -/
inductive DecodeError where
  | exhausted
  | malformed
deriving DecidableEq, Repr

/-- Modelled from the spec: the sentinel "empty" phone number `common::PhoneNumber{}`,
meaning "no peer" (the test suite only uses `Messages/PhoneNumber.hpp`). -/
def PhoneNumber.empty : PhoneNumber := ⟨0⟩

/-- Modelled from the spec: the kind tag of each message kind, one byte (the test suite
only uses the codec; the tag values are this model's choice). -/
def MessageId.tag : MessageId → Nat
  | .Sib => 1
  | .AttachRequest => 2
  | .AttachResponse => 3
  | .Sms => 4
  | .CallRequest => 5
  | .CallAccepted => 6
  | .CallDropped => 7
  | .UnknownRecipient => 8

/-- Modelled from the spec: the message kind of a tag byte; a value outside the enumeration
has none. -/
def MessageId.ofTag : Nat → Option MessageId
  | 1 => some .Sib
  | 2 => some .AttachRequest
  | 3 => some .AttachResponse
  | 4 => some .Sms
  | 5 => some .CallRequest
  | 6 => some .CallAccepted
  | 7 => some .CallDropped
  | 8 => some .UnknownRecipient
  | _ => none

/-- Modelled from the spec: the bytes of a numeric field. The spec leaves the integer
encoding to the implementer; this one writes seven bits per byte, low bits first, and
sets the high bit of every byte but the last. -/
def encodeNumber (n : Nat) : List Nat :=
  if h : n < 128 then [n] else (128 + n % 128) :: encodeNumber (n / 128)
decreasing_by omega

/-- Modelled from the spec: the inverse read of `encodeNumber`. It fails when the buffer
ends inside the number and when a cell is not a byte. -/
def decodeNumber : List Nat → Except DecodeError (Nat × List Nat)
  | [] => .error .exhausted
  | b :: rest =>
    if b < 128 then .ok (b, rest)
    else if b < 256 then
      match decodeNumber rest with
      | .ok (hi, rest1) => .ok (b - 128 + 128 * hi, rest1)
      | .error e => .error e
    else .error .malformed

/-- Modelled from the spec: the message writer, holding the bytes written so far. -/
structure OutgoingMessage where
  message : BinaryMessage
deriving DecidableEq, Repr

namespace OutgoingMessage

/-- Modelled from the spec: the writer built without arguments (`OutgoingMessage wrongMsg{}`
in the test suite) starts from an empty buffer. -/
def empty : OutgoingMessage := ⟨[]⟩

/-- Modelled from the spec: append a numeric field. -/
def writeNumber (m : OutgoingMessage) (n : Nat) : OutgoingMessage :=
  ⟨m.message ++ encodeNumber n⟩

def writeMessageId (m : OutgoingMessage) (msgId : MessageId) : OutgoingMessage :=
  ⟨m.message ++ [msgId.tag]⟩

def writePhoneNumber (m : OutgoingMessage) (number : PhoneNumber) : OutgoingMessage :=
  m.writeNumber number.value

/-- Modelled from the spec: the writer built from (kind, sender, recipient) always writes,
in this order, the kind tag, the sender and the recipient. -/
def new (msgId : MessageId) (from_ to_ : PhoneNumber) : OutgoingMessage :=
  ((empty.writeMessageId msgId).writePhoneNumber from_).writePhoneNumber to_

/-- Modelled from the spec: the base-station payload appends the numeric id. -/
def writeBtsId (m : OutgoingMessage) (btsId : BtsId) : OutgoingMessage :=
  m.writeNumber btsId.value

/-- Modelled from the spec: the boolean payload appends a single flag byte
(`msg.writeNumber(true)` in the test suite). -/
def writeFlag (m : OutgoingMessage) (flag : Bool) : OutgoingMessage :=
  ⟨m.message ++ [if flag then 1 else 0]⟩

/-- Modelled from the spec: the text payload is length-prefixed, one cell per character. -/
def writeText (m : OutgoingMessage) (text : String) : OutgoingMessage :=
  ⟨(m.writeNumber text.length).message ++ text.toList.map Char.toNat⟩

def getMessage (m : OutgoingMessage) : BinaryMessage := m.message

end OutgoingMessage

/-- Modelled from the spec: the message reader, holding the bytes not yet read. -/
structure IncomingMessage where
  rest : BinaryMessage
deriving DecidableEq, Repr

namespace IncomingMessage

/-- Modelled from the spec: read a numeric field. -/
def readNumber (m : IncomingMessage) : Except DecodeError (Nat × IncomingMessage) :=
  match decodeNumber m.rest with
  | .ok (n, rest) => .ok (n, ⟨rest⟩)
  | .error e => .error e

/-- Modelled from the spec: read the kind tag; an unknown tag is a decode error. -/
def readMessageId (m : IncomingMessage) : Except DecodeError (MessageId × IncomingMessage) :=
  match m.rest with
  | [] => .error .exhausted
  | b :: rest =>
    match MessageId.ofTag b with
    | some msgId => .ok (msgId, ⟨rest⟩)
    | none => .error .malformed

def readPhoneNumber (m : IncomingMessage) :
    Except DecodeError (PhoneNumber × IncomingMessage) :=
  match m.readNumber with
  | .ok (n, m1) => .ok (⟨n⟩, m1)
  | .error e => .error e

def readBtsId (m : IncomingMessage) : Except DecodeError (BtsId × IncomingMessage) :=
  match m.readNumber with
  | .ok (n, m1) => .ok (⟨n⟩, m1)
  | .error e => .error e

/-- Modelled from the spec: read the boolean flag byte. -/
def readFlag (m : IncomingMessage) : Except DecodeError (Bool × IncomingMessage) :=
  match m.rest with
  | [] => .error .exhausted
  | 0 :: rest => .ok (false, ⟨rest⟩)
  | 1 :: rest => .ok (true, ⟨rest⟩)
  | _ :: _ => .error .malformed

/-- Modelled from the spec: read the length-prefixed text. -/
def readText (m : IncomingMessage) : Except DecodeError (String × IncomingMessage) :=
  match m.readNumber with
  | .ok (n, m1) =>
    if n ≤ m1.rest.length then
      .ok (String.mk ((m1.rest.take n).map Char.ofNat), ⟨m1.rest.drop n⟩)
    else .error .exhausted
  | .error e => .error e

/-- Modelled from the spec: the "no trailing bytes" check. -/
def checkEndOfMessage (m : IncomingMessage) : Except DecodeError Unit :=
  match m.rest with
  | [] => .ok ()
  | _ :: _ => .error .malformed

end IncomingMessage

end common

/-! ## Link adapter -/

namespace ue

open common

/-- Modelled from the spec: which kind of outbound request can still fail with
"recipient unavailable". -/
inductive PendingKind where
  | Call
  | Sms
deriving DecidableEq, Repr

/-- Modelled from the spec: the most recent outbound call or sms request, its kind and the
number it targets. -/
structure PendingRequest where
  kind : PendingKind
  target : PhoneNumber
deriving DecidableEq, Repr

/-- Modelled from the spec: the link adapter `BtsPort` (only its test suite is at hand,
which builds it from a logger, a transport and the own phone number). `sent` lists the
buffers handed to `transport.sendMessage`, `handled` the methods called on the registered
event handler, both in order. -/
structure BtsPort where
  phoneNumber : PhoneNumber
  pending : Option PendingRequest
  sent : List BinaryMessage
  handled : List Event
deriving DecidableEq, Repr

namespace BtsPort

/-- Modelled from the spec: a fresh adapter has sent nothing, called nothing and tracks no
pending request. -/
def new (phoneNumber : PhoneNumber) : BtsPort :=
  { phoneNumber := phoneNumber, pending := none, sent := [], handled := [] }

/-- Hand one buffer to the transport. The boolean the transport returns only feeds a log
line (no retry, no different notification), so it is left out. -/
def sendMessage (port : BtsPort) (msg : BinaryMessage) : BtsPort :=
  { port with sent := port.sent ++ [msg] }

/-- Call one method of the registered event handler. -/
def callHandler (port : BtsPort) (e : Event) : BtsPort :=
  { port with handled := port.handled ++ [e] }

/-- Modelled from the spec: encode AttachRequest(own number, empty number, base station id)
and hand it to the transport. -/
def sendAttachRequest (port : BtsPort) (btsId : BtsId) : BtsPort :=
  let msg := (OutgoingMessage.new MessageId.AttachRequest port.phoneNumber
    PhoneNumber.empty).writeBtsId btsId
  port.sendMessage msg.getMessage

/-- Modelled from the spec: encode CallRequest(from, to), hand it to the transport and
record the pending request {Call, to}. -/
def sendCallRequest (port : BtsPort) (from_ to_ : PhoneNumber) : BtsPort :=
  let msg := OutgoingMessage.new MessageId.CallRequest from_ to_
  { port.sendMessage msg.getMessage with pending := some ⟨PendingKind.Call, to_⟩ }

/-- Modelled from the spec: encode CallDropped(from, to) and hand it to the transport; the
pending request is left as it is. -/
def sendCallDropped (port : BtsPort) (from_ to_ : PhoneNumber) : BtsPort :=
  let msg := OutgoingMessage.new MessageId.CallDropped from_ to_
  port.sendMessage msg.getMessage

/-- Modelled from the spec: encode Sms(sender, recipient, text), hand it to the transport
and record the pending request {Sms, recipient}. -/
def sendSms (port : BtsPort) (sms : SmsEntity) : BtsPort :=
  let msg := (OutgoingMessage.new MessageId.Sms ⟨sms.sender⟩ ⟨sms.recipient⟩).writeText sms.text
  { port.sendMessage msg.getMessage with pending := some ⟨PendingKind.Sms, ⟨sms.recipient⟩⟩ }

/-- Modelled from the spec: the header of an inbound buffer, kind, sender and recipient,
and the reader positioned after it. -/
def readHeader (msg : BinaryMessage) :
    Except DecodeError (MessageId × PhoneNumber × PhoneNumber × IncomingMessage) :=
  match (IncomingMessage.mk msg).readMessageId with
  | .error e => .error e
  | .ok (msgId, r1) =>
    match r1.readPhoneNumber with
    | .error e => .error e
    | .ok (from_, r2) =>
      match r2.readPhoneNumber with
      | .error e => .error e
      | .ok (to_, r3) => .ok (msgId, from_, to_, r3)

/-- Modelled from the spec: resolving a "recipient unavailable" response against the
pending request. When the pending target is the addressed party the handler method of the
recorded kind is called with that number and the slot is cleared; otherwise the response
is dropped. -/
def resolveUnknownRecipient (port : BtsPort) (to_ : PhoneNumber) : BtsPort :=
  match port.pending with
  | none => port
  | some p =>
    if p.target = to_ then
      match p.kind with
      | .Call => { port with pending := none }.callHandler (Event.handleCallRecipientNotAvailable to_)
      | .Sms => { port with pending := none }.callHandler (Event.handleSmsDeliveryFailure to_)
    else port

/-- Modelled from the spec: decode and dispatch of one inbound buffer, which fails with
the reader's decode error. Kinds the dispatch does not list are dropped. -/
def decodeAndDispatch (port : BtsPort) (msg : BinaryMessage) : Except DecodeError BtsPort :=
  match readHeader msg with
  | .error e => .error e
  | .ok (msgId, from_, to_, reader) =>
    match msgId with
    | .Sib =>
      match reader.readBtsId with
      | .ok (btsId, _) => .ok (port.callHandler (Event.handleSib btsId))
      | .error e => .error e
    | .AttachResponse =>
      match reader.readFlag with
      | .ok (accept, _) =>
        if accept then .ok (port.callHandler Event.handleAttachAccept)
        else .ok (port.callHandler Event.handleAttachReject)
      | .error e => .error e
    | .Sms =>
      match reader.readText with
      | .ok (text, _) => .ok (port.callHandler (Event.handleSms from_ text))
      | .error e => .error e
    | .CallAccepted => .ok (port.callHandler Event.handleCallAccepted)
    | .CallDropped => .ok (port.callHandler Event.handleCallDropped)
    | .UnknownRecipient => .ok (port.resolveUnknownRecipient to_)
    | .AttachRequest => .ok port
    | .CallRequest => .ok port

/-- Modelled from the spec: the message callback registered with the transport. A decode
failure is recovered here: the buffer is dropped and the adapter is left as it was. The
result type still has room for an error reaching the transport. -/
def handleMessage (port : BtsPort) (msg : BinaryMessage) : Except DecodeError BtsPort :=
  match port.decodeAndDispatch msg with
  | .ok port1 => .ok port1
  | .error _ => .ok port

/-- Modelled from the spec: the disconnect callback calls `handleDisconnect`. -/
def handleDisconnected (port : BtsPort) : BtsPort :=
  port.callHandler Event.handleDisconnect

/-- The handler methods called between two moments of the adapter. -/
def handledSince (before after : BtsPort) : List Event :=
  after.handled.drop before.handled.length

end BtsPort

/-- The reads of test `shallSendAttachRequest`, in its order: kind, sender, recipient, base
station id, then the end-of-message check. Each step must succeed for the next to run. -/
def readAttachRequest (msg : BinaryMessage) :
    Except DecodeError (MessageId × PhoneNumber × PhoneNumber × BtsId) :=
  match (IncomingMessage.mk msg).readMessageId with
  | .error e => .error e
  | .ok (msgId, r1) =>
    match r1.readPhoneNumber with
    | .error e => .error e
    | .ok (from_, r2) =>
      match r2.readPhoneNumber with
      | .error e => .error e
      | .ok (to_, r3) =>
        match r3.readBtsId with
        | .error e => .error e
        | .ok (btsId, r4) =>
          match r4.checkEndOfMessage with
          | .error e => .error e
          | .ok _ => .ok (msgId, from_, to_, btsId)

end ue

/-! ## Lemmas on traces -/

namespace ue

open common

section TraceLemmas

variable {σ ε : Type}

@[simp] theorem savedRecords_byState (es : List ε) :
    savedRecords (es.map (Call.byState : ε → Call σ ε)) = [] := by
  induction es with
  | nil => rfl
  | cons e es ih => simpa [savedRecords] using ih

@[simp] theorem deliveries_byState (es : List ε) :
    deliveries (es.map (Call.byState : ε → Call σ ε)) = [] := by
  induction es with
  | nil => rfl
  | cons e es ih => simpa [deliveries] using ih

@[simp] theorem ownCalls_byState (es : List ε) :
    ownCalls (es.map (Call.byState : ε → Call σ ε)) = [] := by
  induction es with
  | nil => rfl
  | cons e es ih => simpa [ownCalls] using ih

theorem deliveries_append (xs ys : List (Call σ ε)) :
    deliveries (xs ++ ys) = deliveries xs ++ deliveries ys := by
  induction xs with
  | nil => rfl
  | cons c cs ih => cases c <;> simp [deliveries, ih]

theorem callsSince_of_trace (before after : Application σ ε) (new : List (Call σ ε))
    (h : after.trace = before.trace ++ new) : before.callsSince after = new := by
  simp [Application.callsSince, h]

theorem callState_trace (st : States σ ε) (app : Application σ ε) (c : StateCall) :
    (app.callState st c).trace =
      app.trace ++ Call.state app.context.stateId app.context.state c ::
        (st.handler app.context.state c).effects.map Call.byState := rfl

theorem callState_context (st : States σ ε) (app : Application σ ε) (c : StateCall) :
    (app.callState st c).context =
      match (st.handler app.context.state c).next with
      | none => app.context
      | some s => app.context.setState s := rfl

theorem handleSms_trace (st : States σ ε) (app : Application σ ε) (from_ : PhoneNumber)
    (text : String) :
    (app.handleSms st from_ text).trace =
      app.trace ++
        (Call.logInfo "SMS received from: " (some from_) ::
          Call.save (SmsEntity.mk from_.value app.phoneNumber.value text) ::
          Call.state app.context.stateId app.context.state (StateCall.handleSms from_ text) ::
          (st.handler app.context.state (StateCall.handleSms from_ text)).effects.map
            Call.byState) := by
  simp [Application.handleSms, Application.callState, Application.smsDbSave,
    Application.logInfo]

/-- The calls one event adds to the trace: the logger and store calls the method makes
first (none for most methods), then the call on the active state and what that state does. -/
theorem deliver_trace (st : States σ ε) (app : Application σ ε) (e : Event) :
    ∃ first : List (Call σ ε),
      (app.deliver st e).trace =
        app.trace ++ (first ++ Call.state app.context.stateId app.context.state e.sameNamed ::
          (st.handler app.context.state e.sameNamed).effects.map Call.byState) ∧
      deliveries first = [] ∧
      (e.isHandleSms = false → savedRecords first = [] ∧ ownCalls first = []) := by
  cases e
  case handleSms from_ text =>
    refine ⟨[Call.logInfo "SMS received from: " (some from_),
      Call.save (SmsEntity.mk from_.value app.phoneNumber.value text)], ?_, ?_, ?_⟩
    · simp [Application.deliver, handleSms_trace, Event.sameNamed]
    · simp [deliveries]
    · simp [Event.isHandleSms]
  case handleSmsDeliveryFailure from_ =>
    refine ⟨[Call.logInfo "from:" (some from_)], ?_, ?_, ?_⟩
    · simp [Application.deliver, Application.handleSmsDeliveryFailure, Application.callState,
        Application.logInfo, Event.sameNamed]
    · simp [deliveries]
    · simp [savedRecords, ownCalls]
  all_goals
    refine ⟨[], ?_, ?_, ?_⟩
    · simp [Application.deliver, Application.viewSmsList, Application.viewSms,
        Application.sendSms, Application.composeSms, Application.handleTimeout,
        Application.handleSib, Application.handleAttachAccept, Application.handleAttachReject,
        Application.handleDisconnect, Application.startDial, Application.sendCallRequest,
        Application.handleCallAccepted, Application.handleCallDropped,
        Application.cancelCallRequest, Application.handleCallRecipientNotAvailable,
        Application.handleRedirect, Application.callState, Event.sameNamed]
    · simp [deliveries]
    · simp [savedRecords, ownCalls]

theorem deliver_context (st : States σ ε) (app : Application σ ε) (e : Event) :
    (app.deliver st e).context =
      match (st.handler app.context.state e.sameNamed).next with
      | none => app.context
      | some s => app.context.setState s := by
  cases e <;> rfl

theorem deliver_phoneNumber (st : States σ ε) (app : Application σ ε) (e : Event) :
    (app.deliver st e).phoneNumber = app.phoneNumber := by
  cases e <;> rfl

theorem run_phoneNumber (st : States σ ε) (app : Application σ ε) (evs : List Event) :
    (Application.run st app evs).phoneNumber = app.phoneNumber := by
  induction evs generalizing app with
  | nil => rfl
  | cons e es ih => simp [Application.run, ih, deliver_phoneNumber]

theorem deliver_deliveries (st : States σ ε) (app : Application σ ε) (e : Event) :
    deliveries (app.callsSince (app.deliver st e)) =
      [Delivery.mk app.context.stateId app.context.state e.sameNamed] := by
  obtain ⟨first, htrace, hfirst, _⟩ := deliver_trace st app e
  rw [callsSince_of_trace _ _ _ htrace, deliveries_append, hfirst]
  simp [deliveries]

theorem deliver_stateId_le (st : States σ ε) (app : Application σ ε) (e : Event) :
    app.context.stateId ≤ (app.deliver st e).context.stateId := by
  rw [deliver_context]
  cases (st.handler app.context.state e.sameNamed).next <;> simp [Context.setState]

/-- Along a run the trace only grows, and every call on a state object made during the run
goes to an object at least as recent as the one active when the run began. -/
theorem run_trace (st : States σ ε) (app : Application σ ε) (evs : List Event) :
    ∃ new : List (Call σ ε),
      (Application.run st app evs).trace = app.trace ++ new ∧
      ∀ d ∈ deliveries new, app.context.stateId ≤ d.obj := by
  induction evs generalizing app with
  | nil => exact ⟨[], by simp [Application.run], by simp [deliveries]⟩
  | cons e es ih =>
    obtain ⟨first, htrace, hfirst, _⟩ := deliver_trace st app e
    obtain ⟨rest, hrest, hle⟩ := ih (app.deliver st e)
    refine ⟨(first ++ Call.state app.context.stateId app.context.state e.sameNamed ::
      (st.handler app.context.state e.sameNamed).effects.map Call.byState) ++ rest, ?_, ?_⟩
    · simp only [Application.run, hrest, htrace, List.append_assoc]
    · intro d hd
      rw [deliveries_append, deliveries_append, hfirst] at hd
      simp only [deliveries, deliveries_byState, List.nil_append, List.mem_append,
        List.mem_singleton] at hd
      rcases hd with hd | hd
      · simp [hd]
      · exact le_trans (deliver_stateId_le st app e) (hle d hd)

end TraceLemmas

end ue

/-! ## The Application: claims -/

namespace ue

open common

/-- C1: whatever the state classes are, whatever phone number `p` the Application was
constructed with and whatever events it has handled since, the method
`handleSms(from, text)` itself hands the SMS store exactly one record, and that record is
`SmsEntity(from.value, p.value, text)`. -/
theorem handleSms_saves_exactly_one_record {σ ε : Type} (st : States σ ε) (p : PhoneNumber)
    (evs : List Event) (from_ : PhoneNumber) (text : String) :
    savedRecords
        ((Application.run st (Application.new st p) evs).callsSince
          ((Application.run st (Application.new st p) evs).handleSms st from_ text)) =
      [SmsEntity.mk from_.value p.value text] := by
  rw [callsSince_of_trace _ _ _ (handleSms_trace st _ from_ text), run_phoneNumber]
  simp [savedRecords, Application.new]

/-- C2: in `handleSms(from, text)` the calls of the Application are, in this order, the log
line, the store's `save` of the record, and then the active state's `handleSms(from, text)`,
followed only by what that state does in its method; the state object receives exactly
this one call. -/
theorem handleSms_saves_before_forwarding {σ ε : Type} (st : States σ ε)
    (app : Application σ ε) (from_ : PhoneNumber) (text : String) :
    app.callsSince (app.handleSms st from_ text) =
        Call.logInfo "SMS received from: " (some from_) ::
          Call.save (SmsEntity.mk from_.value app.phoneNumber.value text) ::
          Call.state app.context.stateId app.context.state (StateCall.handleSms from_ text) ::
          (st.handler app.context.state (StateCall.handleSms from_ text)).effects.map
            Call.byState ∧
      deliveries (app.callsSince (app.handleSms st from_ text)) =
        [Delivery.mk app.context.stateId app.context.state (StateCall.handleSms from_ text)] := by
  rw [callsSince_of_trace _ _ _ (handleSms_trace st app from_ text)]
  simp [deliveries]

/-- C3: for each of the 18 events, the Application method calls the active state object
exactly once, with the method of the same name and the arguments it received, and makes no
other call on a state object. -/
theorem every_event_forwarded_once {σ ε : Type} (st : States σ ε) (app : Application σ ε)
    (e : Event) :
    deliveries (app.callsSince (app.deliver st e)) =
      [Delivery.mk app.context.stateId app.context.state e.sameNamed] :=
  deliver_deliveries st app e

/-- C8: right after construction the active state is `NotConnectedState`, and the
constructor itself has called neither the SMS store nor a state method: besides the
"Started" log line the trace holds only what the constructor of `NotConnectedState` did. -/
theorem new_starts_not_connected {σ ε : Type} (st : States σ ε) (p : PhoneNumber) :
    (Application.new st p).context.state = st.NotConnectedState ∧
      savedRecords (Application.new st p).trace = [] ∧
      (Application.new st p).trace =
        Call.logInfo "Started" none :: st.construct.map Call.byState := by
  simp [Application.new, savedRecords]

/-- C9: split any event sequence as `pre ++ e :: post`. Event `e` is delivered to the state
object active after `pre`; if that state's method replaces the state, the context then
holds the new object, and no event of `post` is delivered to the replaced one. In
particular, when `handleCallAccepted` replaces the state, a following `cancelCallRequest`
is delivered to the new object only. -/
theorem events_reach_the_current_state {σ ε : Type} (st : States σ ε)
    (app : Application σ ε) (pre : List Event) (e : Event) (post : List Event) :
    deliveries ((Application.run st app pre).callsSince
        ((Application.run st app pre).deliver st e)) =
      [Delivery.mk (Application.run st app pre).context.stateId
        (Application.run st app pre).context.state e.sameNamed] ∧
    (∀ s1, (st.handler (Application.run st app pre).context.state e.sameNamed).next = some s1 →
      ((Application.run st app pre).deliver st e).context =
          Context.mk s1 ((Application.run st app pre).context.stateId + 1) ∧
        ∀ d ∈ deliveries (((Application.run st app pre).deliver st e).callsSince
            (Application.run st ((Application.run st app pre).deliver st e) post)),
          d.obj ≠ (Application.run st app pre).context.stateId) ∧
    (∀ s1, (st.handler app.context.state StateCall.handleCallAccepted).next = some s1 →
      deliveries (app.callsSince
          (Application.run st app [Event.handleCallAccepted, Event.cancelCallRequest])) =
        [Delivery.mk app.context.stateId app.context.state StateCall.handleCallAccepted,
          Delivery.mk (app.context.stateId + 1) s1 StateCall.cancelCallRequest]) := by
  refine ⟨deliver_deliveries st _ e, ?_, ?_⟩
  · intro s1 h
    have hctx : ((Application.run st app pre).deliver st e).context =
        Context.mk s1 ((Application.run st app pre).context.stateId + 1) := by
      rw [deliver_context, h]; rfl
    refine ⟨hctx, ?_⟩
    obtain ⟨new, htrace, hle⟩ := run_trace st ((Application.run st app pre).deliver st e) post
    rw [callsSince_of_trace _ _ _ htrace]
    intro d hd
    have := hle d hd
    rw [hctx] at this
    simp only at this
    omega
  · intro s1 h
    have htrace : (Application.run st app
        [Event.handleCallAccepted, Event.cancelCallRequest]).trace =
        app.trace ++
          (Call.state app.context.stateId app.context.state StateCall.handleCallAccepted ::
            (st.handler app.context.state StateCall.handleCallAccepted).effects.map Call.byState
            ++ Call.state (app.context.stateId + 1) s1 StateCall.cancelCallRequest ::
            (st.handler s1 StateCall.cancelCallRequest).effects.map Call.byState) := by
      simp [Application.run, Application.deliver, Application.handleCallAccepted,
        Application.cancelCallRequest, Application.callState, h, Context.setState]
    rw [callsSince_of_trace _ _ _ htrace]
    simp [deliveries, deliveries_append]

/-- Witness for C9 on the state table: Dialing, where `handleCallAccepted` moves to Talking. -/
theorem events_reach_the_current_state_witness :
    deliveries ((Application.mk (Context.mk Phase.Dialing 3) ⟨112⟩ []).callsSince
        (Application.run tableStates (Application.mk (Context.mk Phase.Dialing 3) ⟨112⟩ [])
          [Event.handleCallAccepted, Event.cancelCallRequest])) =
      [Delivery.mk 3 Phase.Dialing StateCall.handleCallAccepted,
        Delivery.mk 4 Phase.Talking StateCall.cancelCallRequest] :=
  (events_reach_the_current_state tableStates
    (Application.mk (Context.mk Phase.Dialing 3) ⟨112⟩ []) [] Event.handleCallAccepted
    [Event.cancelCallRequest]).2.2 Phase.Talking rfl

/-- C10: for every event other than `handleSms`, `sendSms(entity)` included, the Application
method hands nothing to the SMS store, and apart from logging its only call is the one on
the active state object. -/
theorem only_handleSms_saves {σ ε : Type} (st : States σ ε) (app : Application σ ε)
    (e : Event) (h : e.isHandleSms = false) :
    savedRecords (app.callsSince (app.deliver st e)) = [] ∧
      ownCalls (app.callsSince (app.deliver st e)) =
        [Call.state app.context.stateId app.context.state e.sameNamed] := by
  obtain ⟨first, htrace, _, hfirst⟩ := deliver_trace st app e
  obtain ⟨hsaved, hown⟩ := hfirst h
  rw [callsSince_of_trace _ _ _ htrace]
  constructor
  · have : ∀ xs ys : List (Call σ ε), savedRecords xs = [] → savedRecords ys = [] →
        savedRecords (xs ++ ys) = [] := by
      intro xs ys hx hy
      induction xs with
      | nil => simpa using hy
      | cons c cs ih => cases c <;> simp_all [savedRecords]
    exact this _ _ hsaved (by simp [savedRecords])
  · have : ∀ xs ys : List (Call σ ε), ownCalls xs = [] → ownCalls (xs ++ ys) = ownCalls ys := by
      intro xs ys hx
      induction xs with
      | nil => rfl
      | cons c cs ih => cases c <;> simp_all [ownCalls]
    rw [this _ _ hown]
    simp [ownCalls]

/-- Witness for C10: the user-initiated `sendSms` on a freshly constructed Application. -/
theorem only_handleSms_saves_witness :
    (Event.sendSms (SmsEntity.mk 112 123 "test message")).isHandleSms = false ∧
      savedRecords ((Application.new tableStates ⟨112⟩).callsSince
        ((Application.new tableStates ⟨112⟩).deliver tableStates
          (Event.sendSms (SmsEntity.mk 112 123 "test message")))) = [] ∧
      ownCalls ((Application.new tableStates ⟨112⟩).callsSince
        ((Application.new tableStates ⟨112⟩).deliver tableStates
          (Event.sendSms (SmsEntity.mk 112 123 "test message")))) =
        [Call.state 0 Phase.NotAttached
          (StateCall.sendSms (SmsEntity.mk 112 123 "test message"))] :=
  ⟨rfl, only_handleSms_saves tableStates (Application.new tableStates ⟨112⟩)
    (Event.sendSms (SmsEntity.mk 112 123 "test message")) rfl⟩

end ue

/-! ## Wire codec: reading back what was written -/

namespace common

theorem decodeNumber_encodeNumber (n : Nat) (rest : List Nat) :
    decodeNumber (encodeNumber n ++ rest) = .ok (n, rest) := by
  induction n using Nat.strong_induction_on generalizing rest with
  | _ n ih =>
    rw [encodeNumber]
    split
    · next h => simp [decodeNumber, h]
    · next h =>
      have hlt : n / 128 < n := by omega
      have hmod : n % 128 < 128 := Nat.mod_lt _ (by decide)
      have h1 : ¬ (128 + n % 128 < 128) := by omega
      have h2 : 128 + n % 128 < 256 := by omega
      have h3 : 128 + n % 128 - 128 + 128 * (n / 128) = n := by omega
      simp [decodeNumber, h1, h2, ih _ hlt]
      omega

theorem ofTag_tag (msgId : MessageId) : MessageId.ofTag msgId.tag = some msgId := by
  cases msgId <;> rfl

theorem readNumber_encodeNumber (n : Nat) (rest : List Nat) :
    (IncomingMessage.mk (encodeNumber n ++ rest)).readNumber = .ok (n, ⟨rest⟩) := by
  simp [IncomingMessage.readNumber, decodeNumber_encodeNumber]

theorem new_message (msgId : MessageId) (from_ to_ : PhoneNumber) :
    (OutgoingMessage.new msgId from_ to_).message =
      msgId.tag :: (encodeNumber from_.value ++ encodeNumber to_.value) := by
  simp [OutgoingMessage.new, OutgoingMessage.empty, OutgoingMessage.writeMessageId,
    OutgoingMessage.writePhoneNumber, OutgoingMessage.writeNumber]

end common

namespace ue

open common

/-- A buffer that starts with what the writer built from (kind, sender, recipient) wrote
decodes to that header, with the reader left at the payload. -/
theorem readHeader_new (msgId : MessageId) (from_ to_ : PhoneNumber) (payload : List Nat) :
    BtsPort.readHeader ((OutgoingMessage.new msgId from_ to_).message ++ payload) =
      .ok (msgId, from_, to_, ⟨payload⟩) := by
  simp [BtsPort.readHeader, new_message, IncomingMessage.readMessageId, ofTag_tag,
    IncomingMessage.readPhoneNumber, readNumber_encodeNumber, List.append_assoc]

/-- The base station id 13121981 of the test suite takes four bytes on the wire. A writer
built without header that holds only this id, as in test `shallIgnoreWrongMessage`, hands
over these four bytes. -/
theorem encodeNumber_test_btsId : encodeNumber 13121981 = [189, 243, 160, 6] := by
  have e0 : encodeNumber 6 = [6] := by
    rw [encodeNumber]; norm_num
  have e1 : encodeNumber 800 = [160, 6] := by
    rw [encodeNumber]; norm_num; exact e0
  have e2 : encodeNumber 102515 = [243, 160, 6] := by
    rw [encodeNumber]; norm_num; exact e1
  rw [encodeNumber]; norm_num; exact e2

end ue

/-! ## The link adapter: claims -/

namespace ue

open common

/-- C4: for every target number X and every adapter, whatever it tracked before: after
`sendCallRequest(self, X)` an inbound UnknownRecipient message addressed to X makes the
adapter call `handleCallRecipientNotAvailable(X)` and nothing else; after `sendSms` of an
entity whose recipient is X the same message makes it call `handleSmsDeliveryFailure(X)`
and nothing else. In both cases the pending slot is cleared. -/
theorem unknownRecipient_follows_last_request (port : BtsPort) (self X from_ : PhoneNumber)
    (sender : Nat) (text : String) :
    (port.sendCallRequest self X).handleMessage
        (OutgoingMessage.new MessageId.UnknownRecipient from_ X).getMessage =
      .ok { port.sendCallRequest self X with
        pending := none
        handled := port.handled ++ [Event.handleCallRecipientNotAvailable X] } ∧
    (port.sendSms (SmsEntity.mk sender X.value text)).handleMessage
        (OutgoingMessage.new MessageId.UnknownRecipient from_ X).getMessage =
      .ok { port.sendSms (SmsEntity.mk sender X.value text) with
        pending := none
        handled := port.handled ++ [Event.handleSmsDeliveryFailure X] } := by
  have hdr := readHeader_new MessageId.UnknownRecipient from_ X []
  rw [List.append_nil] at hdr
  constructor <;>
    simp [BtsPort.handleMessage, BtsPort.decodeAndDispatch, OutgoingMessage.getMessage, hdr,
      BtsPort.resolveUnknownRecipient, BtsPort.sendCallRequest, BtsPort.sendSms,
      BtsPort.sendMessage, BtsPort.callHandler]

/-- C5: for every base station id `b` and every own number, `sendAttachRequest(b)` hands the
transport exactly one buffer, and reading it in the order kind, sender, recipient, base
station id, end of message succeeds at each step and yields AttachRequest, the own number,
the empty number and `b`. -/
theorem sendAttachRequest_reads_back (port : BtsPort) (b : BtsId) :
    ∃ msg : BinaryMessage,
      (port.sendAttachRequest b).sent = port.sent ++ [msg] ∧
      readAttachRequest msg =
        .ok (MessageId.AttachRequest, port.phoneNumber, PhoneNumber.empty, b) := by
  refine ⟨((OutgoingMessage.new MessageId.AttachRequest port.phoneNumber
    PhoneNumber.empty).writeBtsId b).getMessage, rfl, ?_⟩
  have h2 := readNumber_encodeNumber PhoneNumber.empty.value (encodeNumber b.value)
  have h3 := readNumber_encodeNumber b.value []
  rw [List.append_nil] at h3
  simp [readAttachRequest, OutgoingMessage.getMessage, OutgoingMessage.writeBtsId,
    OutgoingMessage.writeNumber, new_message, IncomingMessage.readMessageId,
    MessageId.ofTag, MessageId.tag, IncomingMessage.readPhoneNumber,
    IncomingMessage.readBtsId, readNumber_encodeNumber, h2, h3,
    IncomingMessage.checkEndOfMessage, List.append_assoc]

/-- C6: for every inbound AttachResponse message as the writer builds it (header, then the
flag), the adapter calls exactly one handler method: `handleAttachAccept()` when the flag
is true and `handleAttachReject()` when it is false; nothing else about the adapter
changes. -/
theorem attachResponse_calls_one_handler (port : BtsPort) (from_ to_ : PhoneNumber)
    (flag : Bool) :
    port.handleMessage
        ((OutgoingMessage.new MessageId.AttachResponse from_ to_).writeFlag flag).getMessage =
      .ok { port with
        handled := port.handled ++
          [if flag then Event.handleAttachAccept else Event.handleAttachReject] } := by
  have hdr := readHeader_new MessageId.AttachResponse from_ to_ [if flag then 1 else 0]
  cases flag <;>
    simp_all [BtsPort.handleMessage, BtsPort.decodeAndDispatch, OutgoingMessage.getMessage,
      OutgoingMessage.writeFlag, IncomingMessage.readFlag, BtsPort.callHandler]

/-- C7: when the header of an inbound buffer does not decode, or its first byte is not the
tag of a known message kind, the message callback returns normally and leaves the adapter
as it was: no handler method is called and no error reaches the transport. -/
theorem undecodable_buffer_is_dropped (port : BtsPort) (msg : BinaryMessage)
    (h : (∃ e, BtsPort.readHeader msg = .error e) ∨
      (∃ b rest, msg = b :: rest ∧ MessageId.ofTag b = none)) :
    port.handleMessage msg = .ok port := by
  have herr : ∃ e, BtsPort.readHeader msg = .error e := by
    rcases h with h | ⟨b, rest, hmsg, htag⟩
    · exact h
    · exact ⟨DecodeError.malformed, by
        simp [BtsPort.readHeader, IncomingMessage.readMessageId, hmsg, htag]⟩
  obtain ⟨e, he⟩ := herr
  simp [BtsPort.handleMessage, BtsPort.decodeAndDispatch, he]

/-- Witness for C7: the buffer of test `shallIgnoreWrongMessage`, whose first byte 189 is no
kind tag, and the empty buffer, whose header does not decode. -/
theorem undecodable_buffer_is_dropped_witness :
    MessageId.ofTag 189 = none ∧
      (BtsPort.new ⟨112⟩).handleMessage [189, 243, 160, 6] = .ok (BtsPort.new ⟨112⟩) ∧
      BtsPort.readHeader [] = .error DecodeError.exhausted ∧
      (BtsPort.new ⟨112⟩).handleMessage [] = .ok (BtsPort.new ⟨112⟩) :=
  ⟨rfl,
    undecodable_buffer_is_dropped (BtsPort.new ⟨112⟩) [189, 243, 160, 6]
      (Or.inr ⟨189, [243, 160, 6], rfl, rfl⟩),
    rfl,
    undecodable_buffer_is_dropped (BtsPort.new ⟨112⟩) [] (Or.inl ⟨DecodeError.exhausted, rfl⟩)⟩

end ue
